import Mathlib

/-!
Shallow embedding of `wickit/shuffle.py` — dynamic service discovery,
registration and health monitoring — together with proofs about the
behaviour of its operations.

The embedding models the module's pure decision logic directly and models
its I/O boundary (socket binds, HTTP probes, JSON decoding, the optional
zeroconf announcement) as explicit inputs: a probe function `Int → ProbeResult`
stands for the network's response at each port, and exception propagation is
made explicit with `Except` / dedicated result constructors.
-/

deriving instance DecidableEq for Except

namespace Wickit

/-- JSON-style values stored in a `project_context` map (Python `Any`,
restricted to the shapes exercised here); `jnull` is Python `None`, which is
also what `dict.get` returns for a missing key. -/
inductive JVal where
  | jnull
  | jstr (s : String)
  | jint (n : Int)
  | jbool (b : Bool)
deriving DecidableEq, Repr

/-- A Python `dict` with string keys, as an association list (keys unique in
all uses below, mirroring Python dict semantics). -/
abbrev Ctx := List (String × JVal)

/-- Python `dict.get(key)`: the stored value, or `None` (`jnull`) when the key
is absent. -/
def pyGet : Ctx → String → JVal
  | [], _ => JVal.jnull
  | kv :: rest, k => if kv.1 = k then kv.2 else pyGet rest k

/-- Python `dict.keys()`. -/
def ctxKeys (c : Ctx) : List String := c.map (fun kv => kv.1)

/-- The context check of `ServiceDiscovery.discover_service` (shuffle.py
lines 308-311): `all(project_context.get(key) ==
service_info.project_context.get(key) for key in project_context.keys())`.
Both sides use `dict.get`, so a missing key compares as `None`. -/
def ctxSubsetMatch (project_context cand : Ctx) : Bool :=
  (ctxKeys project_context).all
    (fun k => decide (pyGet project_context k = pyGet cand k))

/-- `ServiceInfo` dataclass (shuffle.py lines 42-52). `start_time` is the
parsed timestamp (an abstract instant); `status` defaults to "healthy" at
creation but carries whatever a remote payload said. -/
structure ServiceInfo where
  service_id : String
  port : Int
  instance_id : String
  pid : Int
  project_context : Ctx
  verification_token : String
  start_time : Int
  status : String
deriving DecidableEq, Repr

/-- The Python exceptions that matter to the embedded control flow. -/
inductive PyError where
  | keyError
  | valueError
  | osError
deriving DecidableEq, Repr

/-- A raw JSON `start_time` field together with how
`datetime.fromisoformat` treats it: `good t` parses to the instant `t`,
`bad s` is a malformed string on which `fromisoformat` raises `ValueError`. -/
inductive JTime where
  | good (t : Int)
  | bad (s : String)
deriving DecidableEq, Repr

/-- A decoded JSON health payload, one `Option` field per key the code reads
(`none` = key absent, so `data[k]` raises `KeyError` and `data.get(k)`
yields `None`). -/
structure HealthData where
  service : Option String
  status : Option String
  port : Option Int
  instance_id : Option String
  pid : Option Int
  project_context : Option Ctx
  verification_token : Option String
  start_time : Option JTime
deriving DecidableEq, Repr

/-- Building `ServiceInfo(...)` from a decoded payload, mirroring the
keyword-argument evaluation order of shuffle.py lines 296-305 and 367-376:
any missing key raises `KeyError`; a present but unparsable `start_time`
raises `ValueError` from `datetime.fromisoformat` (evaluated before
`status` is read). -/
def buildServiceInfo (d : HealthData) : Except PyError ServiceInfo :=
  match d.service, d.port, d.instance_id, d.pid,
        d.project_context, d.verification_token with
  | some sid, some port, some iid, some pid, some ctx, some tok =>
    match d.start_time with
    | none => .error .keyError
    | some (.bad _) => .error .valueError
    | some (.good t) =>
      match d.status with
      | none => .error .keyError
      | some st => .ok ⟨sid, port, iid, pid, ctx, tok, t, st⟩
  | _, _, _, _, _, _ => .error .keyError

/-- Outcome of one HTTP probe of `/api/health` at a port, as seen by the
caller: `netError` is `urllib.error.URLError` (unreachable, refused,
timeout, non-2xx); `badJson` is `json.JSONDecodeError`; `payload d` is a
successfully decoded JSON object. -/
inductive ProbeResult where
  | netError
  | badJson
  | payload (d : HealthData)

/-- Classified outcome of the scan-loop body for one port. -/
inductive Step where
  | accept (si : ServiceInfo)
  | reject
  | raiseVal
deriving DecidableEq, Repr

/-- The body of the scan loop of `ServiceDiscovery.discover_service`
(shuffle.py lines 282-316) for one port's probe result. `reject` covers every
caught or fall-through path: `URLError` and `JSONDecodeError` and `KeyError`
are caught by the `except` clause, and a service / status / context mismatch
falls through to the next port. `raiseVal` is the `ValueError` raised by
`datetime.fromisoformat` on a malformed `start_time`, which is NOT in the
caught exception tuple. -/
def probeOutcome (expected_service_id : String) (project_context : Ctx) :
    ProbeResult → Step
  | .netError => .reject
  | .badJson => .reject
  | .payload d =>
    if d.service = some expected_service_id ∧ d.status = some "healthy" then
      match buildServiceInfo d with
      | .error .keyError => .reject
      | .error _ => .raiseVal
      | .ok si =>
        if ctxSubsetMatch project_context si.project_context then .accept si
        else .reject
    else .reject

/-- Python `range(lo, hi + 1)` over integers: the ascending list
`[lo, lo + 1, ..., hi]`, empty when `hi < lo`. -/
def intRange (lo hi : Int) : List Int :=
  (List.range (hi + 1 - lo).toNat).map (fun (i : Nat) => lo + (i : Int))

/-- Result of `ServiceDiscovery.discover_service`: a verified record, `None`,
or an uncaught exception propagating out of the call. -/
inductive DiscoverResult where
  | found (si : ServiceInfo)
  | notFound
  | raised (e : PyError)
deriving DecidableEq, Repr

/-- The port-scanning loop of `discover_service` over an explicit port
list. -/
def discoverLoop (expected_service_id : String) (project_context : Ctx)
    (probe : Int → ProbeResult) : List Int → DiscoverResult
  | [] => .notFound
  | p :: rest =>
    match probeOutcome expected_service_id project_context (probe p) with
    | .accept si => .found si
    | .raiseVal => .raised PyError.valueError
    | .reject => discoverLoop expected_service_id project_context probe rest

/-- `ServiceDiscovery.discover_service` (shuffle.py lines 267-318): scan
`range(lo, hi + 1)` in ascending order; `probe` is the network's response at
each port. -/
def discover_service (expected_service_id : String) (project_context : Ctx)
    (probe : Int → ProbeResult) (lo hi : Int) : DiscoverResult :=
  discoverLoop expected_service_id project_context probe (intRange lo hi)

/-- `ServiceVerifier.verify_service_identity` (shuffle.py lines 235-257):
`all` of the four discriminator checks. -/
def verify_service_identity (expected discovered : ServiceInfo) : Bool :=
  [ decide (expected.service_id = discovered.service_id),
    decide (expected.instance_id = discovered.instance_id),
    decide (expected.pid = discovered.pid),
    decide (expected.verification_token = discovered.verification_token)
  ].all (fun b => b)

/-- Errors of the registration path. -/
inductive ShuffleErr where
  | noAvailablePort
deriving DecidableEq, Repr

/-- The loop of `ServiceRegistry._find_available_port` (shuffle.py lines
135-145) over an explicit port list; `avail` is `_is_port_available`
(whether a TCP bind probe on the port succeeds right now). -/
def findPortLoop (avail : Int → Bool) : List Int → Except ShuffleErr Int
  | [] => .error .noAvailablePort
  | p :: rest => if avail p then .ok p else findPortLoop avail rest

/-- `ServiceRegistry._find_available_port`: first bindable port of
`range(min_port, max_port + 1)`, else `NoAvailablePortError`. -/
def find_available_port (avail : Int → Bool) (lo hi : Int) :
    Except ShuffleErr Int :=
  findPortLoop avail (intRange lo hi)

/-- Port selection of `ServiceRegistry.start` (shuffle.py lines 108-112):
`if preferred_port and self._is_port_available(preferred_port)`. Note the
Python truthiness test: `preferred_port = 0` is falsy, so a preferred port
of 0 is never consulted. -/
def startPort (avail : Int → Bool) (lo hi : Int)
    (preferred_port : Option Int) : Except ShuffleErr Int :=
  match preferred_port with
  | some p =>
    if p ≠ 0 ∧ avail p = true then .ok p else find_available_port avail lo hi
  | none => find_available_port avail lo hi

/-- The JSON body returned by `ServiceRegistry.health_response`: either the
error object or the full payload. -/
inductive HealthResp where
  | err (msg : String)
  | payload (service : String) (status : String) (port : Int)
      (instance_id : String) (pid : Int) (verification_token : String)
      (project_context : Ctx) (mdns : Option String) (uptime_seconds : Int)
      (start_time : Int)
deriving DecidableEq, Repr

/-- `ServiceRegistry.health_response` (shuffle.py lines 199-222); `now`
stands for `datetime.now()`, so `uptime_seconds = now - start_time`.
`service_info` is `self.service_info`, which is `None` until `start()` has
run. -/
def health_response (mdns_name : Option String)
    (service_info : Option ServiceInfo) (now : Int) : HealthResp :=
  match service_info with
  | none => .err "Service not started"
  | some si =>
    .payload si.service_id si.status si.port si.instance_id si.pid
      si.verification_token si.project_context mdns_name
      (now - si.start_time) si.start_time

/-- `ServiceChangeEvent` dataclass (shuffle.py lines 409-414). -/
structure ServiceChangeEvent where
  event_type : String
  old_service : ServiceInfo
  new_service : Option ServiceInfo
deriving DecidableEq, Repr

/-- The environment of one polling cycle of `HealthMonitor._monitor_loop`:
the probe result at the tracked port, and the network layout seen by the
recovery re-scan should the health check fail. -/
structure CycleEnv where
  health : ProbeResult
  scan : Int → ProbeResult

/-- What one polling cycle does: carry on (with or without delivering an
event to `on_change`), return from the loop after delivering an event
(the restart branch's `return`), or die on an uncaught exception without
delivering anything. -/
inductive CycleOutcome where
  | continueNoEvent
  | continueWithEvent (e : ServiceChangeEvent)
  | stopWithEvent (e : ServiceChangeEvent)
  | stopNoEvent
deriving DecidableEq, Repr

/-- `HealthMonitor._handle_service_down` (shuffle.py lines 386-406): re-scan
`(port - 10, port + 10)` with the tracked record's `service_id` and
`project_context`; fire `recovery` on a find, `disconnected` otherwise.
Control then falls back into the polling loop — there is no `return` here.
A `ValueError` escaping the inner `discover_service` call propagates out of
the monitor thread (`stopNoEvent`). -/
def handle_service_down (si : ServiceInfo) (scan : Int → ProbeResult) :
    CycleOutcome :=
  match discover_service si.service_id si.project_context scan
      (si.port - 10) (si.port + 10) with
  | .found nsi => .continueWithEvent ⟨"recovery", si, some nsi⟩
  | .notFound => .continueWithEvent ⟨"disconnected", si, none⟩
  | .raised _ => .stopNoEvent

/-- One iteration of `HealthMonitor._monitor_loop` (shuffle.py lines
350-384). A successful probe whose `instance_id` and `pid` both match the
tracked record does nothing; a mismatch builds the new record and fires
`restart` then returns; `KeyError` during that build (and any probe
failure) is caught and handed to `_handle_service_down`; the `ValueError`
from a malformed `start_time` is uncaught and kills the thread. -/
def monitorCycle (si : ServiceInfo) (env : CycleEnv) : CycleOutcome :=
  match env.health with
  | .netError => handle_service_down si env.scan
  | .badJson => handle_service_down si env.scan
  | .payload d =>
    if d.instance_id = some si.instance_id ∧ d.pid = some si.pid then
      .continueNoEvent
    else
      match buildServiceInfo d with
      | .ok nsi => .stopWithEvent ⟨"restart", si, some nsi⟩
      | .error .keyError => handle_service_down si env.scan
      | .error _ => .stopNoEvent

/-- `HealthMonitor._monitor_loop` run over a finite schedule of polling
cycles (the external stop flag stays up throughout), collecting in order the
events delivered to `on_change`. The run ends early when the loop `return`s
(restart branch) or the thread dies on an uncaught exception. The tracked
record `si` is never reassigned by the source loop, so every cycle compares
against the same record. -/
def monitorRun (si : ServiceInfo) : List CycleEnv → List ServiceChangeEvent
  | [] => []
  | env :: rest =>
    match monitorCycle si env with
    | .continueNoEvent => monitorRun si rest
    | .continueWithEvent e => e :: monitorRun si rest
    | .stopWithEvent e => [e]
    | .stopNoEvent => []

/-- The observable behaviour of the optional zeroconf announcement: whether
the module imports, and what its register / unregister / close calls do. -/
structure MdnsEnv where
  importable : Bool
  registerResult : Except PyError Unit
  unregisterResult : Except PyError Unit
  closeResult : Except PyError Unit

/-- `ServiceRegistry._register_mdns` (shuffle.py lines 158-197): only
`ImportError` is caught (logged and skipped); any error raised by the
zeroconf calls themselves propagates. Returns whether
`_zeroconf` / `_service_info` ended up set. -/
def register_mdns (env : MdnsEnv) : Except PyError Bool :=
  if env.importable then
    match env.registerResult with
    | .ok _ => .ok true
    | .error e => .error e
  else
    .ok false

/-- The tail of `ServiceRegistry.start` (shuffle.py lines 129-133): the
`ServiceRecord` is already built; when an mDNS name was supplied,
`_register_mdns` runs and its uncaught errors propagate out of `start`. -/
def startWithMdns (env : MdnsEnv) (si : ServiceInfo)
    (mdns_name : Option String) : Except PyError (ServiceInfo × Bool) :=
  match mdns_name with
  | none => .ok (si, false)
  | some _ =>
    match register_mdns env with
    | .ok registered => .ok (si, registered)
    | .error e => .error e

/-- `ServiceRegistry.stop` (shuffle.py lines 224-229): when a registration
is held, call `unregister_service` then `close` with no exception handling
around either. -/
def stop (env : MdnsEnv) (registered : Bool) : Except PyError Unit :=
  if registered then
    match env.unregisterResult with
    | .ok _ => env.closeResult
    | .error e => .error e
  else
    .ok ()

/-- Whether a scan-loop step accepts a candidate. -/
def isAcceptStep : Step → Bool
  | .accept _ => true
  | _ => false

/-! Concrete sample data used to exercise the definitions. -/

/-- A tracked service record, as produced by `ServiceRegistry.start`. -/
def si0 : ServiceInfo :=
  ⟨"svc", 7005, "inst-1", 41, [], "tok-1", 100, "healthy"⟩

/-- A record with the same `service_id` but fresh instance identifiers, as a
restarted process would serve. -/
def nsi0 : ServiceInfo :=
  ⟨"svc", 7005, "inst-2", 42, [], "tok-2", 200, "healthy"⟩

/-- The same identity as `si0` on all four discriminators, different
`port` and `project_context`. -/
def siB : ServiceInfo :=
  ⟨"svc", 8000, "inst-1", 41, [("v", JVal.jint 1)], "tok-1", 100, "healthy"⟩

/-- Health payload equal to what `si0`'s process serves. -/
def dMatch : HealthData :=
  ⟨some "svc", some "healthy", some 7005, some "inst-1", some 41, some [],
    some "tok-1", some (JTime.good 100)⟩

/-- Health payload of a restarted instance (new `instance_id` / `pid`),
fully well-formed. -/
def dNew : HealthData :=
  ⟨some "svc", some "healthy", some 7005, some "inst-2", some 42, some [],
    some "tok-2", some (JTime.good 200)⟩

/-- A payload whose `service` and `status` match but whose `start_time`
string is malformed, so `datetime.fromisoformat` raises `ValueError`. -/
def dBad : HealthData :=
  ⟨some "svc", some "healthy", some 7000, some "inst-2", some 99, some [],
    some "tok-2", some (JTime.bad "not-a-date")⟩

/-- Port layout where only port 7000 answers, with the malformed payload. -/
def probeBad : Int → ProbeResult :=
  fun p => if p = 7000 then .payload dBad else .netError

/-- A well-formed payload whose `project_context` is the empty dict. -/
def dEmptyCtx : HealthData :=
  ⟨some "svc", some "healthy", some 7000, some "inst-3", some 99, some [],
    some "tok-3", some (JTime.good 5)⟩

/-- Port layout where only port 7000 answers, with `dEmptyCtx`. -/
def probeEmptyCtx : Int → ProbeResult :=
  fun p => if p = 7000 then .payload dEmptyCtx else .netError

/-- The record `discover_service` builds from `dEmptyCtx`. -/
def si8 : ServiceInfo :=
  ⟨"svc", 7000, "inst-3", 99, [], "tok-3", 5, "healthy"⟩

/-- A network where every port is unreachable. -/
def deadScan : Int → ProbeResult := fun _ => ProbeResult.netError

/-- A polling cycle in which the health check fails and the recovery
re-scan finds nothing. -/
def envDown : CycleEnv := ⟨ProbeResult.netError, deadScan⟩

/-- A polling cycle in which the health check returns the payload of a
restarted instance. -/
def envRestart : CycleEnv := ⟨ProbeResult.payload dNew, deadScan⟩

/-- A polling cycle in which the health check returns the same instance. -/
def envSame : CycleEnv := ⟨ProbeResult.payload dMatch, deadScan⟩

/-- An availability oracle under which every bind probe succeeds. -/
def allFree : Int → Bool := fun _ => true

/-- A zeroconf environment whose `unregister_service` call raises. -/
def envMdnsFail : MdnsEnv :=
  ⟨true, Except.ok (), Except.error PyError.osError, Except.ok ()⟩

/-- A zeroconf environment in which the `zeroconf` module is not
installed (`ImportError` on import). -/
def envMdnsOffline : MdnsEnv :=
  ⟨false, Except.ok (), Except.ok (), Except.ok ()⟩

/-! Helper lemmas -/

theorem mem_intRange {lo hi q : Int} :
    q ∈ intRange lo hi ↔ lo ≤ q ∧ q ≤ hi := by
  unfold intRange
  rw [List.mem_map]
  constructor
  · rintro ⟨i, hmem, rfl⟩
    rw [List.mem_range] at hmem
    omega
  · rintro ⟨h1, h2⟩
    refine ⟨(q - lo).toNat, ?_, ?_⟩
    · rw [List.mem_range]; omega
    · omega

theorem intRange_pairwise (lo hi : Int) :
    (intRange lo hi).Pairwise (· < ·) := by
  unfold intRange
  refine List.Pairwise.map _ (fun a b h => ?_) (List.pairwise_lt_range _)
  omega

theorem findPortLoop_first (avail : Int → Bool) :
    ∀ l : List Int, l.Pairwise (· < ·) → ∀ q, findPortLoop avail l = .ok q →
      q ∈ l ∧ avail q = true ∧ ∀ r ∈ l, r < q → avail r = false := by
  intro l
  induction l with
  | nil => intro _ q h; cases h
  | cons p rest ih =>
    intro hp q h
    rw [List.pairwise_cons] at hp
    by_cases hap : avail p = true
    · simp only [findPortLoop, hap, if_true] at h
      cases h
      refine ⟨List.mem_cons_self _ _, hap, ?_⟩
      intro r hr hlt
      rcases List.mem_cons.mp hr with rfl | hr'
      · omega
      · exact absurd (hp.1 r hr') (by omega)
    · simp only [findPortLoop, hap, if_false, Bool.false_eq_true] at h
      obtain ⟨hmem, hq, hfirst⟩ := ih hp.2 q h
      refine ⟨List.mem_cons_of_mem _ hmem, hq, ?_⟩
      intro r hr hlt
      rcases List.mem_cons.mp hr with rfl | hr'
      · exact Bool.not_eq_true _ ▸ (by simpa using hap)
      · exact hfirst r hr' hlt

theorem findPortLoop_none (avail : Int → Bool) :
    ∀ l : List Int,
      (findPortLoop avail l = .error .noAvailablePort ↔
        ∀ r ∈ l, avail r = false) := by
  intro l
  induction l with
  | nil => simp [findPortLoop]
  | cons p rest ih =>
    by_cases hap : avail p = true
    · simp [findPortLoop, hap]
    · simp only [findPortLoop, hap, if_false, Bool.false_eq_true, ih]
      constructor
      · intro h r hr
        rcases List.mem_cons.mp hr with rfl | hr'
        · simpa using hap
        · exact h r hr'
      · intro h r hr'
        exact h r (List.mem_cons_of_mem _ hr')

theorem discoverLoop_notFound (ex : String) (ctx : Ctx)
    (probe : Int → ProbeResult) :
    ∀ l : List Int, (∀ p ∈ l, probeOutcome ex ctx (probe p) = .reject) →
      discoverLoop ex ctx probe l = .notFound := by
  intro l
  induction l with
  | nil => intro _; rfl
  | cons p rest ih =>
    intro h
    have hp := h p (List.mem_cons_self _ _)
    simp only [discoverLoop, hp]
    exact ih (fun q hq => h q (List.mem_cons_of_mem _ hq))

theorem discoverLoop_found (ex : String) (ctx : Ctx)
    (probe : Int → ProbeResult) :
    ∀ l : List Int, l.Pairwise (· < ·) → ∀ si,
      discoverLoop ex ctx probe l = .found si →
      ∃ p, p ∈ l ∧ probeOutcome ex ctx (probe p) = .accept si ∧
        ∀ q ∈ l, q < p → probeOutcome ex ctx (probe q) = .reject := by
  intro l
  induction l with
  | nil => intro _ si h; cases h
  | cons p rest ih =>
    intro hp si h
    rw [List.pairwise_cons] at hp
    cases hstep : probeOutcome ex ctx (probe p) with
    | accept si2 =>
      simp only [discoverLoop, hstep] at h
      cases h
      refine ⟨p, List.mem_cons_self _ _, hstep, ?_⟩
      intro q hq hlt
      rcases List.mem_cons.mp hq with rfl | hq2
      · omega
      · exact absurd (hp.1 q hq2) (by omega)
    | reject =>
      simp only [discoverLoop, hstep] at h
      obtain ⟨p2, hmem, hacc, hfirst⟩ := ih hp.2 si h
      refine ⟨p2, List.mem_cons_of_mem _ hmem, hacc, ?_⟩
      intro q hq hlt
      rcases List.mem_cons.mp hq with rfl | hq2
      · exact hstep
      · exact hfirst q hq2 hlt
    | raiseVal =>
      simp only [discoverLoop, hstep] at h
      cases h

theorem discoverLoop_found_of_accept (ex : String) (ctx : Ctx)
    (probe : Int → ProbeResult) :
    ∀ l : List Int, l.Pairwise (· < ·) → ∀ p si, p ∈ l →
      probeOutcome ex ctx (probe p) = .accept si →
      (∀ q ∈ l, q < p → probeOutcome ex ctx (probe q) = .reject) →
      discoverLoop ex ctx probe l = .found si := by
  intro l
  induction l with
  | nil => intro _ p si hmem; cases hmem
  | cons a rest ih =>
    intro hp p si hmem hacc hfirst
    rw [List.pairwise_cons] at hp
    rcases List.mem_cons.mp hmem with rfl | hmem2
    · simp only [discoverLoop, hacc]
    · have ha : probeOutcome ex ctx (probe a) = .reject :=
        hfirst a (List.mem_cons_self _ _) (hp.1 p hmem2)
      simp only [discoverLoop, ha]
      exact ih hp.2 p si hmem2 hacc
        (fun q hq hlt => hfirst q (List.mem_cons_of_mem _ hq) hlt)

theorem buildServiceInfo_ok {d : HealthData} {si : ServiceInfo} :
    buildServiceInfo d = .ok si →
      d.service = some si.service_id ∧
      d.project_context = some si.project_context := by
  obtain ⟨s, st, po, iid, pid, pc, vt, sti⟩ := d
  cases s with
  | none => intro h; cases h
  | some sid =>
  cases po with
  | none => intro h; cases h
  | some port =>
  cases iid with
  | none => intro h; cases h
  | some iidv =>
  cases pid with
  | none => intro h; cases h
  | some pidv =>
  cases pc with
  | none => intro h; cases h
  | some ctx =>
  cases vt with
  | none => intro h; cases h
  | some tok =>
  cases sti with
  | none => intro h; cases h
  | some jt =>
  cases jt with
  | bad s2 => intro h; cases h
  | good t =>
  cases st with
  | none => intro h; cases h
  | some stv =>
    intro h
    cases h
    exact ⟨rfl, rfl⟩

theorem ctxSubsetMatch_iff (a b : Ctx) :
    ctxSubsetMatch a b = true ↔ ∀ k ∈ ctxKeys a, pyGet a k = pyGet b k := by
  simp [ctxSubsetMatch, List.all_eq_true, decide_eq_true_eq]

theorem probeOutcome_accept {expected_service_id : String}
    {project_context : Ctx} {r : ProbeResult} {si : ServiceInfo} :
    probeOutcome expected_service_id project_context r = .accept si →
      si.service_id = expected_service_id ∧
      ctxSubsetMatch project_context si.project_context = true := by
  cases r with
  | netError => intro h; cases h
  | badJson => intro h; cases h
  | payload d =>
    intro h
    simp only [probeOutcome] at h
    by_cases hcond : d.service = some expected_service_id ∧
        d.status = some "healthy"
    · rw [if_pos hcond] at h
      cases hb : buildServiceInfo d with
      | error e =>
        rw [hb] at h
        cases e <;> cases h
      | ok si2 =>
        rw [hb] at h
        dsimp only at h
        by_cases hm : ctxSubsetMatch project_context si2.project_context = true
        · rw [if_pos hm] at h
          cases h
          obtain ⟨hs, -⟩ := buildServiceInfo_ok hb
          have h1 := hcond.1
          rw [hs] at h1
          cases h1
          exact ⟨rfl, hm⟩
        · rw [if_neg hm] at h
          cases h
    · rw [if_neg hcond] at h
      cases h

/-! Claims -/

/-- C5: `verify_service_identity` returns true iff the four discriminator
fields (`service_id`, `instance_id`, `pid`, `verification_token`) are
pairwise equal; it is reflexive and symmetric, any single discriminator
mismatch yields false (immediate from the iff), and the result is
independent of the `port` and `project_context` fields. -/
theorem verify_service_identity_spec (a b : ServiceInfo) :
    (verify_service_identity a b = true ↔
      (a.service_id = b.service_id ∧ a.instance_id = b.instance_id ∧
        a.pid = b.pid ∧ a.verification_token = b.verification_token))
    ∧ verify_service_identity a a = true
    ∧ verify_service_identity a b = verify_service_identity b a
    ∧ (∀ p q c d, verify_service_identity
        { a with port := p, project_context := c }
        { b with port := q, project_context := d }
        = verify_service_identity a b) := by
  have hiff : ∀ x y : ServiceInfo, verify_service_identity x y = true ↔
      (x.service_id = y.service_id ∧ x.instance_id = y.instance_id ∧
        x.pid = y.pid ∧ x.verification_token = y.verification_token) := by
    intro x y
    simp [verify_service_identity, List.all_cons, Bool.and_eq_true,
      decide_eq_true_eq, and_assoc]
  refine ⟨hiff a b, (hiff a a).mpr ⟨rfl, rfl, rfl, rfl⟩, ?_, fun p q c d => rfl⟩
  rw [Bool.eq_iff_iff, hiff a b, hiff b a]
  constructor
  · rintro ⟨h1, h2, h3, h4⟩; exact ⟨h1.symm, h2.symm, h3.symm, h4.symm⟩
  · rintro ⟨h1, h2, h3, h4⟩; exact ⟨h1.symm, h2.symm, h3.symm, h4.symm⟩

/-- C5 witness: the theorem applied to `si0` and `siB`, which share all four
discriminators but differ in `port` and `project_context`. -/
theorem verify_service_identity_spec_witness :
    verify_service_identity si0 siB = true :=
  (verify_service_identity_spec si0 siB).1.mpr (by decide)

/-- C10: `health_response` called while `self.service_info` is still `None`
(that is, before `start()` has ever run) returns the error object
`{"error": "Service not started"}`. The embedded function is total, so no
exception is possible. -/
theorem health_response_before_start (mdns_name : Option String) (now : Int) :
    health_response mdns_name none now = HealthResp.err "Service not started" :=
  rfl

/-- C6 counterexample: a preferred port of 0 is supplied and is bindable
(`allFree 0 = true`), yet `start` does not return it — the Python truthiness
test `if preferred_port and ...` treats 0 as "no preferred port" and the
range scan runs instead, returning port 5. -/
theorem startPort_zero_preferred_counterexample :
    allFree 0 = true
    ∧ startPort allFree 5 5 (some 0) = Except.ok 5
    ∧ startPort allFree 5 5 (some 0) ≠ Except.ok 0 := by
  decide

/-- C6 (amended): if a preferred nonzero port is supplied and currently
bindable it is returned without scanning; with no preferred port, a
preferred port of 0, or an unbindable preferred port, the ports `lo..hi`
are probed inclusively in ascending order and the first bindable port is
returned; `NoAvailablePortError` is raised iff every port in the range is
taken. -/
theorem startPort_spec (avail : Int → Bool) (lo hi : Int)
    (preferred_port : Option Int) :
    (∀ p, preferred_port = some p → p ≠ 0 → avail p = true →
      startPort avail lo hi preferred_port = .ok p)
    ∧ (∀ q, find_available_port avail lo hi = .ok q →
        lo ≤ q ∧ q ≤ hi ∧ avail q = true ∧
          ∀ r, lo ≤ r → r < q → avail r = false)
    ∧ (find_available_port avail lo hi = .error .noAvailablePort ↔
        ∀ r, lo ≤ r → r ≤ hi → avail r = false)
    ∧ ((preferred_port = none ∨ preferred_port = some 0 ∨
          ∀ p, preferred_port = some p → avail p = false) →
        startPort avail lo hi preferred_port = find_available_port avail lo hi) := by
  refine ⟨?_, ?_, ?_, ?_⟩
  · rintro p rfl hz ha
    simp only [startPort]
    rw [if_pos ⟨hz, ha⟩]
  · intro q h
    obtain ⟨hmem, hq, hfirst⟩ :=
      findPortLoop_first avail (intRange lo hi) (intRange_pairwise lo hi) q h
    obtain ⟨h1, h2⟩ := mem_intRange.mp hmem
    refine ⟨h1, h2, hq, ?_⟩
    intro r hr1 hr2
    exact hfirst r (mem_intRange.mpr ⟨hr1, by omega⟩) hr2
  · rw [find_available_port, findPortLoop_none]
    constructor
    · intro h r hr1 hr2
      exact h r (mem_intRange.mpr ⟨hr1, hr2⟩)
    · intro h r hr
      obtain ⟨h1, h2⟩ := mem_intRange.mp hr
      exact h r h1 h2
  · rintro (rfl | rfl | h)
    · rfl
    · simp [startPort]
    · cases preferred_port with
      | none => rfl
      | some p =>
        simp only [startPort]
        rw [if_neg]
        rintro ⟨-, hap⟩
        rw [h p rfl] at hap
        cases hap

/-- C6 witness: the amended theorem applied to a concrete state — a
bindable nonzero preferred port 7 is returned without scanning `5..5`. -/
theorem startPort_spec_witness :
    startPort allFree 5 5 (some 7) = Except.ok 7 :=
  (startPort_spec allFree 5 5 (some 7)).1 7 rfl (by decide) rfl

/-- C4 counterexample: over the range 7000..7005 with `probeBad`, no port
yields an accepted candidate (second conjunct), yet `discover_service` does
not return None — the payload at port 7000 matches on `service` and
`status` but carries a malformed `start_time`, and the resulting
`ValueError` propagates out of the call. -/
theorem discover_raises_instead_of_none :
    discover_service "svc" [] probeBad 7000 7005
      = DiscoverResult.raised PyError.valueError
    ∧ (intRange 7000 7005).all
        (fun p => !(isAcceptStep (probeOutcome "svc" [] (probeBad p)))) = true := by
  decide

/-- C4 (amended): `discover_service` probes ports strictly in ascending
order and returns the first accepted candidate (payload decodes, status
"healthy", service equal to `expected_service_id`, context subset match),
rejecting every smaller port; it stops at that match; and when every port
in the range is rejected it returns None without raising. (The original
claim's unconditional "returns None without raising" fails when a probed
payload matches on service and status but has a malformed `start_time`:
the uncaught `ValueError` propagates instead, see the counterexample.) -/
theorem discover_service_first_match (expected_service_id : String)
    (project_context : Ctx) (probe : Int → ProbeResult) (lo hi : Int) :
    ((∀ p, lo ≤ p → p ≤ hi →
        probeOutcome expected_service_id project_context (probe p) = .reject) →
      discover_service expected_service_id project_context probe lo hi
        = .notFound)
    ∧ (∀ si, discover_service expected_service_id project_context probe lo hi
          = .found si →
        ∃ p, lo ≤ p ∧ p ≤ hi ∧
          probeOutcome expected_service_id project_context (probe p)
            = .accept si ∧
          ∀ q, lo ≤ q → q < p →
            probeOutcome expected_service_id project_context (probe q)
              = .reject)
    ∧ (∀ p si, lo ≤ p → p ≤ hi →
        probeOutcome expected_service_id project_context (probe p)
          = .accept si →
        (∀ q, lo ≤ q → q < p →
          probeOutcome expected_service_id project_context (probe q)
            = .reject) →
        discover_service expected_service_id project_context probe lo hi
          = .found si) := by
  refine ⟨?_, ?_, ?_⟩
  · intro h
    exact discoverLoop_notFound _ _ _ _
      (fun p hp => h p (mem_intRange.mp hp).1 (mem_intRange.mp hp).2)
  · intro si h
    obtain ⟨p, hmem, hacc, hfirst⟩ :=
      discoverLoop_found _ _ _ (intRange lo hi) (intRange_pairwise lo hi) si h
    obtain ⟨h1, h2⟩ := mem_intRange.mp hmem
    refine ⟨p, h1, h2, hacc, ?_⟩
    intro q hq1 hq2
    exact hfirst q (mem_intRange.mpr ⟨hq1, by omega⟩) hq2
  · intro p si h1 h2 hacc hfirst
    exact discoverLoop_found_of_accept _ _ _ (intRange lo hi)
      (intRange_pairwise lo hi) p si (mem_intRange.mpr ⟨h1, h2⟩) hacc
      (fun q hq hlt => hfirst q (mem_intRange.mp hq).1 hlt)

/-- C4 witness: on a network where every port is unreachable, the amended
theorem yields the not-found result over 7000..7002. -/
theorem discover_service_first_match_witness :
    discover_service "svc" [] deadScan 7000 7002 = DiscoverResult.notFound :=
  (discover_service_first_match "svc" [] deadScan 7000 7002).1
    (fun _ _ _ => rfl)

/-- C3 (code bug): a JSON body that matches on `service` and `status` and
has every field present, but whose `start_time` string is malformed, makes
`datetime.fromisoformat` raise `ValueError` — which is absent from the
`except (URLError, JSONDecodeError, KeyError)` tuple, although the code's
own comment says an invalid response should mean "continue to next port".
The exception propagates out of `ServiceDiscovery.discover_service`; inside
`HealthMonitor._monitor_loop` the same payload (with a changed
`instance_id`/`pid`) kills the monitor thread without any event. -/
theorem malformed_start_time_raises :
    discover_service "svc" [] probeBad 7000 7000
      = DiscoverResult.raised PyError.valueError
    ∧ monitorCycle si0 ⟨ProbeResult.payload dBad, deadScan⟩
      = CycleOutcome.stopNoEvent := by
  decide

/-- C8 counterexample: with expected context subset `{"k": None}` and a
candidate whose context is the empty dict, both sides of the comparison go
through `dict.get`, so `None == None` holds and the candidate is accepted —
`discover_service` returns a record whose context is missing the key
`"k"` required by the subset. -/
theorem discover_null_key_counterexample :
    discover_service "svc" [("k", JVal.jnull)] probeEmptyCtx 7000 7000
      = DiscoverResult.found si8
    ∧ ¬ ("k" ∈ ctxKeys si8.project_context) := by
  decide

/-- C8 (amended): `discover_service` never returns a record whose
`service_id` differs from `expected_service_id`, and every key present in
`expected_context_subset` has an equal value in the returned record's
context under Python `dict.get` lookup, where a missing key reads as
`None` — so a key mapped to `None` in the subset may be absent from the
returned record's context (see the counterexample). -/
theorem discover_service_context_guarantee (expected_service_id : String)
    (project_context : Ctx) (probe : Int → ProbeResult) (lo hi : Int)
    (si : ServiceInfo) :
    discover_service expected_service_id project_context probe lo hi
      = .found si →
    si.service_id = expected_service_id ∧
      ∀ k ∈ ctxKeys project_context,
        pyGet project_context k = pyGet si.project_context k := by
  intro h
  obtain ⟨p, hmem, hacc, -⟩ :=
    discoverLoop_found _ _ _ (intRange lo hi) (intRange_pairwise lo hi) si h
  obtain ⟨hs, hm⟩ := probeOutcome_accept hacc
  exact ⟨hs, (ctxSubsetMatch_iff _ _).mp hm⟩

/-- C8 witness: the amended theorem applied to the concrete discovery that
accepts `si8`, giving its `service_id` guarantee. -/
theorem discover_service_context_guarantee_witness :
    si8.service_id = "svc" :=
  (discover_service_context_guarantee "svc" [("k", JVal.jnull)]
    probeEmptyCtx 7000 7000 si8 (by decide)).1

theorem handle_service_down_shape (si : ServiceInfo)
    (scan : Int → ProbeResult) :
    (∃ nsi, handle_service_down si scan
        = .continueWithEvent ⟨"recovery", si, some nsi⟩)
    ∨ handle_service_down si scan
        = .continueWithEvent ⟨"disconnected", si, none⟩
    ∨ handle_service_down si scan = .stopNoEvent := by
  unfold handle_service_down
  cases hd : discover_service si.service_id si.project_context scan
      (si.port - 10) (si.port + 10) with
  | found nsi => exact Or.inl ⟨nsi, rfl⟩
  | notFound => exact Or.inr (Or.inl rfl)
  | raised e2 => exact Or.inr (Or.inr rfl)

theorem monitorCycle_continueWithEvent {si : ServiceInfo} {env : CycleEnv}
    {e : ServiceChangeEvent} :
    monitorCycle si env = .continueWithEvent e →
    (e.event_type = "recovery" ∨ e.event_type = "disconnected")
      ∧ e.old_service = si := by
  intro h
  obtain ⟨hh, hsc⟩ := env
  have hshape := handle_service_down_shape si hsc
  cases hh with
  | netError =>
    rw [show monitorCycle si ⟨ProbeResult.netError, hsc⟩
        = handle_service_down si hsc from rfl] at h
    rcases hshape with ⟨nsi, hd⟩ | hd | hd <;> rw [hd] at h <;> cases h
    · exact ⟨Or.inl rfl, rfl⟩
    · exact ⟨Or.inr rfl, rfl⟩
  | badJson =>
    rw [show monitorCycle si ⟨ProbeResult.badJson, hsc⟩
        = handle_service_down si hsc from rfl] at h
    rcases hshape with ⟨nsi, hd⟩ | hd | hd <;> rw [hd] at h <;> cases h
    · exact ⟨Or.inl rfl, rfl⟩
    · exact ⟨Or.inr rfl, rfl⟩
  | payload d =>
    simp only [monitorCycle] at h
    by_cases hc : d.instance_id = some si.instance_id ∧ d.pid = some si.pid
    · rw [if_pos hc] at h; cases h
    · rw [if_neg hc] at h
      cases hb : buildServiceInfo d with
      | ok nsi => rw [hb] at h; cases h
      | error e2 =>
        rw [hb] at h
        cases e2 with
        | keyError =>
          rcases hshape with ⟨nsi, hd⟩ | hd | hd <;> rw [hd] at h <;> cases h
          · exact ⟨Or.inl rfl, rfl⟩
          · exact ⟨Or.inr rfl, rfl⟩
        | valueError => cases h
        | osError => cases h

theorem monitorCycle_stopWithEvent {si : ServiceInfo} {env : CycleEnv}
    {e : ServiceChangeEvent} :
    monitorCycle si env = .stopWithEvent e →
    e.event_type = "restart" ∧ e.old_service = si
      ∧ ∃ nsi, e.new_service = some nsi := by
  intro h
  obtain ⟨hh, hsc⟩ := env
  have hshape := handle_service_down_shape si hsc
  cases hh with
  | netError =>
    rw [show monitorCycle si ⟨ProbeResult.netError, hsc⟩
        = handle_service_down si hsc from rfl] at h
    rcases hshape with ⟨nsi, hd⟩ | hd | hd <;> rw [hd] at h <;> cases h
  | badJson =>
    rw [show monitorCycle si ⟨ProbeResult.badJson, hsc⟩
        = handle_service_down si hsc from rfl] at h
    rcases hshape with ⟨nsi, hd⟩ | hd | hd <;> rw [hd] at h <;> cases h
  | payload d =>
    simp only [monitorCycle] at h
    by_cases hc : d.instance_id = some si.instance_id ∧ d.pid = some si.pid
    · rw [if_pos hc] at h; cases h
    · rw [if_neg hc] at h
      cases hb : buildServiceInfo d with
      | ok nsi =>
        rw [hb] at h
        cases h
        exact ⟨rfl, rfl, nsi, rfl⟩
      | error e2 =>
        rw [hb] at h
        cases e2 with
        | keyError =>
          rcases hshape with ⟨nsi, hd⟩ | hd | hd <;> rw [hd] at h <;> cases h
        | valueError => cases h
        | osError => cases h

/-- C1 counterexample: two consecutive polling cycles in which the health
check fails and the narrowed-range re-scan finds nothing. The monitor fires
a `disconnected` event in the FIRST cycle, then re-arms, probes again, and
fires a second `disconnected` event — contradicting "once the monitor has
fired a disconnected event it terminates and fires no further events". -/
theorem monitor_rearms_after_disconnected :
    monitorRun si0 [envDown, envDown]
      = [⟨"disconnected", si0, none⟩, ⟨"disconnected", si0, none⟩]
    ∧ ¬ ((monitorRun si0 [envDown, envDown]).length ≤ 1) := by
  decide

/-- C1 (amended): at most one event is fired per polling cycle (the trace
never exceeds the number of cycles); after a `restart` event the loop
returns — the remaining schedule is never probed and no further event is
fired; but after a `recovery` or `disconnected` event the loop continues
(the monitor re-arms), so a restart-classified event can only be the LAST
event of any trace, while recovery/disconnected events may repeat. -/
theorem monitor_one_shot_restart (si : ServiceInfo) (envs : List CycleEnv) :
    (monitorRun si envs).length ≤ envs.length
    ∧ (∀ env rest e, monitorCycle si env = .stopWithEvent e →
        monitorRun si (env :: rest) = [e])
    ∧ (∀ pre e post, monitorRun si envs = pre ++ e :: post →
        e.event_type = "restart" → post = []) := by
  refine ⟨?_, ?_, ?_⟩
  · induction envs with
    | nil => simp [monitorRun]
    | cons env rest ih =>
      cases hc : monitorCycle si env <;>
        simp only [monitorRun, hc, List.length_cons, List.length_nil] <;>
        omega
  · intro env rest e h
    simp only [monitorRun, h]
  · induction envs with
    | nil =>
      intro pre e post heq hres
      simp only [monitorRun] at heq
      rw [eq_comm, List.append_eq_nil] at heq
      exact absurd heq.2 (List.cons_ne_nil _ _)
    | cons env rest ih =>
      intro pre e post heq hres
      cases hc : monitorCycle si env with
      | continueNoEvent =>
        simp only [monitorRun, hc] at heq
        exact ih pre e post heq hres
      | continueWithEvent e2 =>
        simp only [monitorRun, hc] at heq
        cases pre with
        | nil =>
          simp only [List.nil_append] at heq
          injection heq with h1 h2
          subst h1
          obtain ⟨hty, -⟩ := monitorCycle_continueWithEvent hc
          rcases hty with hty | hty <;> rw [hres] at hty <;>
            exact absurd hty (by decide)
        | cons a pre2 =>
          injection heq with h1 h2
          exact ih pre2 e post h2 hres
      | stopWithEvent e2 =>
        simp only [monitorRun, hc] at heq
        cases pre with
        | nil =>
          simp only [List.nil_append] at heq
          injection heq with h1 h2
          exact h2.symm
        | cons a pre2 =>
          injection heq with h1 h2
          exact absurd (List.append_eq_nil.mp h2.symm).2 (List.cons_ne_nil _ _)
      | stopNoEvent =>
        simp only [monitorRun, hc] at heq
        rw [eq_comm, List.append_eq_nil] at heq
        exact absurd heq.2 (List.cons_ne_nil _ _)

/-- C1 witness: a restart-classified cycle ends the run with exactly that
one event, applying the amended theorem's one-shot clause at a concrete
schedule. -/
theorem monitor_one_shot_restart_witness :
    monitorRun si0 [envRestart] = [⟨"restart", si0, some nsi0⟩] :=
  (monitor_one_shot_restart si0 [envRestart]).2.1 envRestart []
    ⟨"restart", si0, some nsi0⟩ (by decide)

/-- C2 counterexample: the event fired on a detected restart carries
`event_type = "restart"` (source line 365), which is none of the three
strings `"restarted"`, `"recovered"`, `"disconnected"` stated by the
claim. -/
theorem monitor_event_type_strings_counterexample :
    monitorRun si0 [envRestart] = [⟨"restart", si0, some nsi0⟩]
    ∧ ¬ ("restart" = "restarted" ∨ "restart" = "recovered"
        ∨ "restart" = "disconnected") := by
  decide

/-- C2 (amended): every event delivered to the caller callback has
`event_type` equal to one of exactly the three strings `"restart"`,
`"recovery"`, `"disconnected"` (the source's literals at lines 365, 397,
403), with `old_service` the tracked record; `new_service` is a
`ServiceInfo` or `None` by type. -/
theorem monitor_event_fields (si : ServiceInfo) (envs : List CycleEnv) :
    ∀ e ∈ monitorRun si envs,
      (e.event_type = "restart" ∨ e.event_type = "recovery"
        ∨ e.event_type = "disconnected")
      ∧ e.old_service = si := by
  induction envs with
  | nil =>
    intro e he
    simp only [monitorRun] at he
    exact absurd he (List.not_mem_nil _)
  | cons env rest ih =>
    intro e he
    cases hc : monitorCycle si env with
    | continueNoEvent =>
      simp only [monitorRun, hc] at he
      exact ih e he
    | continueWithEvent e2 =>
      simp only [monitorRun, hc] at he
      rcases List.mem_cons.mp he with rfl | he2
      · obtain ⟨hty, hold⟩ := monitorCycle_continueWithEvent hc
        exact ⟨Or.inr hty, hold⟩
      · exact ih e he2
    | stopWithEvent e2 =>
      simp only [monitorRun, hc] at he
      rcases List.mem_cons.mp he with rfl | he2
      · obtain ⟨hty, hold, -⟩ := monitorCycle_stopWithEvent hc
        exact ⟨Or.inl hty, hold⟩
      · exact absurd he2 (List.not_mem_nil _)
    | stopNoEvent =>
      simp only [monitorRun, hc] at he
      exact absurd he (List.not_mem_nil _)

/-- C2 witness: the amended theorem applied to the concrete `disconnected`
event delivered on a dead network. -/
theorem monitor_event_fields_witness :
    ((ServiceChangeEvent.mk "disconnected" si0 none).event_type = "restart"
      ∨ (ServiceChangeEvent.mk "disconnected" si0 none).event_type = "recovery"
      ∨ (ServiceChangeEvent.mk "disconnected" si0 none).event_type
          = "disconnected")
    ∧ (ServiceChangeEvent.mk "disconnected" si0 none).old_service = si0 :=
  monitor_event_fields si0 [envDown] ⟨"disconnected", si0, none⟩ (by decide)

/-- C7: in a polling cycle whose health request succeeds, if the returned
`instance_id` and `pid` both match the tracked record, no event is fired
and monitoring continues with the remaining schedule; if either differs
(and the payload builds into a record), exactly one restart-classified
event is fired carrying the old tracked record and the newly observed one,
and the monitor then stops polling — the rest of the schedule is never
consumed. -/
theorem monitor_cycle_health_classification (si : ServiceInfo)
    (scan : Int → ProbeResult) (d : HealthData) (rest : List CycleEnv) :
    (d.instance_id = some si.instance_id ∧ d.pid = some si.pid →
      monitorRun si (⟨ProbeResult.payload d, scan⟩ :: rest)
        = monitorRun si rest)
    ∧ (∀ nsi, ¬ (d.instance_id = some si.instance_id ∧ d.pid = some si.pid) →
        buildServiceInfo d = .ok nsi →
        monitorRun si (⟨ProbeResult.payload d, scan⟩ :: rest)
          = [⟨"restart", si, some nsi⟩]) := by
  constructor
  · intro hmatch
    have hc : monitorCycle si ⟨ProbeResult.payload d, scan⟩
        = .continueNoEvent := by
      simp only [monitorCycle]
      rw [if_pos hmatch]
    simp only [monitorRun, hc]
  · intro nsi hne hb
    have hc : monitorCycle si ⟨ProbeResult.payload d, scan⟩
        = .stopWithEvent ⟨"restart", si, some nsi⟩ := by
      simp only [monitorCycle]
      rw [if_neg hne, hb]
    simp only [monitorRun, hc]

/-- C7 witness: an identical health response produces no event and the run
continues; a response with a fresh `instance_id`/`pid` yields exactly the
one restart event, via the theorem at concrete payloads. -/
theorem monitor_cycle_health_classification_witness :
    monitorRun si0 [envSame] = monitorRun si0 []
    ∧ monitorRun si0 [envRestart] = [⟨"restart", si0, some nsi0⟩] :=
  ⟨(monitor_cycle_health_classification si0 deadScan dMatch []).1
      (by decide),
   (monitor_cycle_health_classification si0 deadScan dNew []).2 nsi0
      (by decide) (by decide)⟩

/-- C9 counterexample: `stop()` holds a registration and the zeroconf
`unregister_service` call raises; with no try/except in `stop` (source
lines 224-229) the error propagates to the caller instead of being logged
and ignored. -/
theorem stop_raises_counterexample :
    stop envMdnsFail true = Except.error PyError.osError
    ∧ stop envMdnsFail true ≠ Except.ok () := by
  decide

/-- C9 (amended): unavailability of the announcement mechanism (the
`zeroconf` import failing) is caught, logged and ignored — it never affects
the result of `start()` or the `ServiceRecord` produced — and `stop()` with
no registration held is a no-op; but an error raised by the mechanism's own
calls propagates: `stop()` re-raises any `unregister_service` failure, and
a registration failure other than unavailability propagates out of
`start()`. -/
theorem mdns_optional_failures (env : MdnsEnv) (si : ServiceInfo)
    (mdns_name : Option String) :
    (env.importable = false →
      register_mdns env = .ok false
      ∧ startWithMdns env si mdns_name = .ok (si, false))
    ∧ stop env false = .ok ()
    ∧ (∀ e, env.unregisterResult = .error e → stop env true = .error e)
    ∧ (∀ e name, env.importable = true → env.registerResult = .error e →
        startWithMdns env si (some name) = .error e) := by
  refine ⟨?_, rfl, ?_, ?_⟩
  · intro hni
    have hr : register_mdns env = .ok false := by
      simp [register_mdns, hni]
    refine ⟨hr, ?_⟩
    cases mdns_name with
    | none => rfl
    | some n => simp [startWithMdns, hr]
  · intro e he
    simp [stop, he]
  · intro e name him hre
    simp [startWithMdns, register_mdns, him, hre]

/-- C9 witness: with `zeroconf` not installed, registration is skipped and
`start` still returns the record, via the amended theorem at a concrete
environment. -/
theorem mdns_optional_failures_witness :
    register_mdns envMdnsOffline = Except.ok false
    ∧ startWithMdns envMdnsOffline si0 (some "svc.local")
      = Except.ok (si0, false) :=
  (mdns_optional_failures envMdnsOffline si0 (some "svc.local")).1 rfl

end Wickit
